import Mathlib

/-!
Shallow embedding of `src/scripts/deploy_multichain.py` (Mint Gene
Co-Deployer, multi-chain deployment orchestrator).

External effects (subprocess invocations, wall-clock time, the
possibility of an I/O exception inside a `try` block) are passed in as
explicit parameters; all functions of the script become pure Lean
functions over those parameters.  Python strings are Lean `String`s;
`str.split` / `str.strip` are re-implemented below by structural
recursion so that every definition evaluates inside the kernel.
-/

/-- Does `sep` occur at the head of `l`?  (List-of-characters prefix
test, written out structurally so the kernel can evaluate it.) -/
def startsWithChars : List Char → List Char → Bool
  | [], _ => true
  | _ :: _, [] => false
  | c :: cs, d :: ds => c = d && startsWithChars cs ds

/-- Fueled worker for `charsSplitOn`.  Scans `l` left to right; each
time the (nonempty) separator `sep` occurs, the accumulated chunk is
emitted and the separator is skipped (non-overlapping occurrences,
exactly as Python `str.split(sep)`).  The fuel bounds the number of
consumed characters, so `fuel = l.length` always suffices. -/
def charsSplitOnFuel (sep : List Char) : Nat → List Char → List Char → List (List Char)
  | _, [], acc => [acc.reverse]
  | 0, l, acc => [acc.reverse ++ l]
  | Nat.succ n, c :: cs, acc =>
    if startsWithChars sep (c :: cs) then
      acc.reverse :: charsSplitOnFuel sep n (List.drop (sep.length - 1) cs) []
    else
      charsSplitOnFuel sep n cs (c :: acc)

/-- Split a character list on every non-overlapping occurrence of
`sep`, like Python `str.split(sep)` for a nonempty `sep`. -/
def charsSplitOn (sep l : List Char) : List (List Char) :=
  charsSplitOnFuel sep l.length l []

/-- Python `s.split(sep)` on Lean strings (for nonempty `sep`). -/
def strSplitOn (s sep : String) : List String :=
  (charsSplitOn sep.data s.data).map String.mk

/-- Python `str.isspace` for a single character: the exact set of
code points Python treats as whitespace (and `str.strip()` removes) —
the ASCII range `\t\n\v\f\r`, the information separators
`\x1c`-`\x1f`, space, next-line `\x85`, no-break space `\xa0`, and the
Unicode space/line/paragraph separators. -/
def pyIsSpace (c : Char) : Bool :=
  let n := c.toNat
  decide ((0x09 ≤ n ∧ n ≤ 0x0d) ∨ (0x1c ≤ n ∧ n ≤ 0x1f) ∨ n = 0x20 ∨ n = 0x85 ∨
    n = 0xa0 ∨ n = 0x1680 ∨ (0x2000 ≤ n ∧ n ≤ 0x200a) ∨ n = 0x2028 ∨ n = 0x2029 ∨
    n = 0x202f ∨ n = 0x205f ∨ n = 0x3000)

/-- Python `s.strip()`: remove leading and trailing characters
satisfying `pyIsSpace`. -/
def strTrim (s : String) : String :=
  String.mk (((s.data.dropWhile pyIsSpace).reverse.dropWhile pyIsSpace).reverse)

/-- Python `marker in line`: `line.split(marker)` has at least two
parts exactly when `marker` occurs in `line`. -/
def strContains (line marker : String) : Bool :=
  decide (2 ≤ (strSplitOn line marker).length)

/-- The marker-scanning loop shared by `deploy_solana` (lines 134-139
of the source) and `deploy_skale` (lines 180-185): find the first line
containing `marker` and return `line.split(marker)[1].strip()`. -/
def findMarkerValue (marker : String) : List String → Option String
  | [] => none
  | line :: rest =>
    match strSplitOn line marker with
    | _ :: second :: _ => some (strTrim second)
    | _ => findMarkerValue marker rest

/-- Python `int(s)` for a string of decimal digits, and the digit
accumulator of `parseDecimal`. -/
def digitsToNat (s : String) : Nat :=
  s.data.foldl (fun acc c => acc * 10 + (c.toNat - 48)) 0

/-- Python `float(s)` for the nonnegative decimal literals this script
produces (`"0"`, `"0.001"`, `"0.01"`), modelled with exact rational
arithmetic in place of IEEE floating point: the claims about fee
totals concern which amounts enter which sum, not rounding. -/
def parseDecimal (s : String) : ℚ :=
  match strSplitOn s "." with
  | [ip] => (digitsToNat ip : ℚ)
  | [ip, fp] => (digitsToNat ip : ℚ) + (digitsToNat fp : ℚ) / ((10 : ℚ) ^ fp.length)
  | _ => 0

/-- `ChainConfig` dataclass (source lines 29-35). -/
structure ChainConfig where
  name : String
  rpc_url : String
  chain_id : Nat
  native_token : String
  relayer_type : String
deriving DecidableEq, Repr

/-- `DeploymentResult` dataclass (source lines 37-45).  `timestamp`
is seconds since epoch (`int(time.time())`), passed in as a
parameter wherever the source samples the clock. -/
structure DeploymentResult where
  chain : String
  contract_address : String
  program_id : String
  tx_hash : String
  gas_used : String
  relayer_fee : String
  timestamp : Nat
deriving DecidableEq, Repr

/-- The `self.chains` dict built in `MultiChainDeployer.__init__`
(source lines 49-64).  The `rpc_url` strings abbreviate the env-var
defaults of lines 22-23 (no claim depends on them); `chain_id` for
SKALE is the default of `SKALE_CHAIN_ID`. -/
def chains (key : String) : Option ChainConfig :=
  if key = "solana" then
    some { name := "Solana", rpc_url := "https://mainnet.helius-rpc.com/",
           chain_id := 101, native_token := "SOL", relayer_type := "octane" }
  else if key = "skale" then
    some { name := "SKALE", rpc_url := "https://mainnet.skalenodes.com/v1/elated-tan-skat",
           chain_id := 2046399126, native_token := "sFUEL", relayer_type := "biconomy" }
  else none

/-- `self.chains[d.chain].native_token`, as read by `generate_report`
(source lines 272-273); `""` for a chain outside the dict (where the
source would raise `KeyError`). -/
def nativeTokenOf (d : DeploymentResult) : String :=
  match chains d.chain with
  | some c => c.native_token
  | none => ""

/-- Result of a `subprocess.run(..., capture_output=True, text=True)`
call: the fields of Python `CompletedProcess` the script reads. -/
structure ProcResult where
  returncode : Int
  stdout : String
  stderr : String
deriving DecidableEq, Repr

/-- Outcome of one deployer invocation.  The source returns
`Optional[DeploymentResult]` and distinguishes the failure modes only
through the diagnostic it prints; the constructors record exactly
those branches: `unparseable` prints "Could not extract ... from
deployment output" (lines 155 / 201), `externalFailure stderr` prints
"deployment failed: stderr" (lines 157 / 203), `buildError` is the
`CalledProcessError` handler for `anchor build` (line 159). -/
inductive DeployOutcome where
  | success (d : DeploymentResult)
  | unparseable
  | externalFailure (stderr : String)
  | buildError
deriving DecidableEq, Repr

/-- The `Optional[DeploymentResult]` value a deployer call returns to
`run_full_deployment`: `Some` exactly on the success branch. -/
def DeployOutcome.result : DeployOutcome → Option DeploymentResult
  | .success d => some d
  | _ => none

/-- What one deployer invocation appends to `self.deployments`:
the single success result, or nothing (lines 151 / 197 append only
inside the success branch). -/
def DeployOutcome.recorded : DeployOutcome → List DeploymentResult
  | .success d => [d]
  | _ => []

/-- `MultiChainDeployer.deploy_solana` (source lines 113-164).
Parameters stand for the external world: `buildOk` is whether
`anchor build` (run with `check=True`) exits cleanly, `res` is the
completed deploy subprocess, `now` is `int(time.time())`.  `ledger` is
`self.deployments` on entry; the returned list is `self.deployments`
on exit (the success branch appends, line 151).  Line 141 guards the
success branch with Python truthiness (`if program_id:`): both no
marker line at all and a marker value that strips to the empty string
are falsy and fall to the "Could not extract" branch. -/
def deploy_solana (ledger : List DeploymentResult) (buildOk : Bool)
    (res : ProcResult) (now : Nat) : DeployOutcome × List DeploymentResult :=
  if buildOk then
    if res.returncode = 0 then
      match findMarkerValue "Program ID:" (strSplitOn res.stdout "\n") with
      | some pid =>
        if pid = "" then (.unparseable, ledger)
        else
          let d : DeploymentResult :=
            { chain := "solana", contract_address := pid, program_id := pid,
              tx_hash := "relayer_tx_hash", gas_used := "0",
              relayer_fee := "0.001", timestamp := now }
          (.success d, ledger ++ [d])
      | none => (.unparseable, ledger)
    else (.externalFailure res.stderr, ledger)
  else (.buildError, ledger)

/-- `MultiChainDeployer.deploy_skale` (source lines 166-210).  Same
shape as `deploy_solana` but with no build step, marker
`"Contract Address:"`, and `program_id` set equal to the contract
address (line 191).  Line 187's truthiness guard
(`if contract_address:`) likewise sends an empty stripped marker
value to the "Could not extract" branch. -/
def deploy_skale (ledger : List DeploymentResult)
    (res : ProcResult) (now : Nat) : DeployOutcome × List DeploymentResult :=
  if res.returncode = 0 then
    match findMarkerValue "Contract Address:" (strSplitOn res.stdout "\n") with
    | some addr =>
      if addr = "" then (.unparseable, ledger)
      else
        let d : DeploymentResult :=
          { chain := "skale", contract_address := addr, program_id := addr,
            tx_hash := "relayer_tx_hash", gas_used := "0",
            relayer_fee := "0.01", timestamp := now }
        (.success d, ledger ++ [d])
    | none => (.unparseable, ledger)
  else (.externalFailure res.stderr, ledger)

/-- The `sacred_state` dict built inside `sync_cross_chain` (source
lines 229-233). -/
structure SacredState where
  matrix_level : Nat
  earnings_pool : Nat
  allowlist : List String
deriving DecidableEq, Repr

/-- The `sync_data` cross-chain record built by `sync_cross_chain`
(source lines 224-235). -/
structure SyncData where
  source_chain : String
  target_chain : String
  source_address : String
  target_address : String
  sacred_state : SacredState
  timestamp : Nat
deriving DecidableEq, Repr

/-- The record construction of `sync_cross_chain` (source lines
224-235): deterministic in the two deployment results, with the
fixed baseline `matrix_level = 1`, `earnings_pool = 0`, and an
allowlist holding the two contract addresses. -/
def sync_data (solana_deployment skale_deployment : DeploymentResult)
    (now : Nat) : SyncData :=
  { source_chain := "solana", target_chain := "skale",
    source_address := solana_deployment.contract_address,
    target_address := skale_deployment.contract_address,
    sacred_state :=
      { matrix_level := 1, earnings_pool := 0,
        allowlist := [solana_deployment.contract_address,
                      skale_deployment.contract_address] },
    timestamp := now }

/-- `MultiChainDeployer.sync_cross_chain` (source lines 212-251):
builds `sync_data`, prints it, and returns `True` (line 247); the
`except Exception` handler (lines 249-251) returns `False`.  The body
performs no attestation-network call: its only operations besides the
pure record construction are `print` and `json.dumps` on plain data,
so `bodyOk` models whether those I/O effects complete without
raising — the sole way the handler can run.  The return value is
`bodyOk`, independent of the input pair. -/
def sync_cross_chain (solana_deployment skale_deployment : DeploymentResult)
    (now : Nat) (bodyOk : Bool) : Bool :=
  let _ := sync_data solana_deployment skale_deployment now
  bodyOk

/-- The values computed and printed by `generate_report` (source lines
253-279).  `total_savings` is line 259; `details` are the per-result
blocks of lines 269-274; `cross_chain_synchronized` is the branch of
lines 276-279 (`True` prints "Cross-Chain Status: Synchronized",
`False` prints "Single chain deployment only").  Line 263 of the
source is syntactically corrupted (a stray `".2f"` from a broken
f-string); the value it meant to display is the `total_savings` of
line 259, which is modelled as computed there. -/
structure Report where
  total_deployments : Nat
  total_savings : ℚ
  details : List DeploymentResult
  cross_chain_synchronized : Bool

/-- `MultiChainDeployer.generate_report` (source lines 253-279), as a
pure function of `self.deployments`. -/
def generate_report (deployments : List DeploymentResult) : Report :=
  { total_deployments := deployments.length,
    total_savings := (deployments.map (fun d => parseDecimal d.relayer_fee)).sum,
    details := deployments,
    cross_chain_synchronized := decide (2 ≤ deployments.length) }

/-- Modelled from the spec: the per-native-token fee totals of the
`DeploymentLedger` contract (`totalRelayerFee(groupedByToken)`,
spec section 4.2) — fees grouped by the native token of each result's
chain and summed only within a group.  This definition follows the
spec's words; it exists to be compared with the source's
`total_savings` sum of `generate_report`. -/
def specFeeByToken : List DeploymentResult → String → ℚ
  | [], _ => 0
  | d :: ds, tok =>
    (if nativeTokenOf d = tok then parseDecimal d.relayer_fee else 0)
      + specFeeByToken ds tok

/-- The external facts `check_environment` probes: presence of the
four tools (each `subprocess.run([...])` either succeeds or raises
`FileNotFoundError`) and the `PRIVATE_KEY` value loaded at line 24
(defaulting to `"your_private_key_here"` when unset). -/
structure Env where
  node : Bool
  python3 : Bool
  anchor : Bool
  hardhat : Bool
  private_key : String
deriving DecidableEq, Repr

/-- `MultiChainDeployer.check_environment` (source lines 70-111):
returns `False` when Node.js is missing (line 80), when Python3 is
missing (line 88), or when the private key is unconfigured (line
107); a missing Anchor CLI (line 95) or Hardhat (line 102) only
prints an install hint and does not affect the result. -/
def check_environment (e : Env) : Bool :=
  if e.node = false then false
  else if e.python3 = false then false
  else if e.private_key = "your_private_key_here" then false
  else true

/-- The external world of one `run_full_deployment` call: the
environment probe facts, the outcome of `anchor build`, the two
deploy subprocesses, the three clock samples, and whether the I/O
body of `sync_cross_chain` completes without raising. -/
structure RunInputs where
  env : Env
  buildOk : Bool
  solanaProc : ProcResult
  skaleProc : ProcResult
  tSol : Nat
  tSka : Nat
  tSync : Nat
  syncBodyOk : Bool
deriving DecidableEq, Repr

/-- Observable outcome of `MultiChainDeployer.run_full_deployment`
(source lines 281-316): which branches ran, the messages of lines
300/302/304, the return value of `sync_cross_chain` (which line 298
awaits and then discards), the generated report (line 308; `none`
when the run returned early), and the final `self.deployments`. -/
structure RunResult where
  env_ok : Bool
  solana_result : Option DeploymentResult
  skale_result : Option DeploymentResult
  sync_invoked : Bool
  sync_returned : Option Bool
  warn_message : Option String
  both_failed_message : Bool
  report : Option Report
  ledger : List DeploymentResult

/-- `MultiChainDeployer.run_full_deployment` (source lines 281-316):
environment gate (line 286), sequential Solana then SKALE deploys
(lines 291-294, each threading `self.deployments`), the four-way
branch on the two optional results (lines 297-305, with an early
return when both failed), then `generate_report` (line 308). -/
def run_full_deployment (inp : RunInputs) : RunResult :=
  if check_environment inp.env = false then
    { env_ok := false, solana_result := none, skale_result := none,
      sync_invoked := false, sync_returned := none, warn_message := none,
      both_failed_message := false, report := none, ledger := [] }
  else
    let sol := deploy_solana [] inp.buildOk inp.solanaProc inp.tSol
    let ska := deploy_skale sol.2 inp.skaleProc inp.tSka
    match sol.1.result, ska.1.result with
    | some s, some k =>
      { env_ok := true, solana_result := some s, skale_result := some k,
        sync_invoked := true,
        sync_returned := some (sync_cross_chain s k inp.tSync inp.syncBodyOk),
        warn_message := none, both_failed_message := false,
        report := some (generate_report ska.2), ledger := ska.2 }
    | some s, none =>
      { env_ok := true, solana_result := some s, skale_result := none,
        sync_invoked := false, sync_returned := none,
        warn_message := some "Only Solana deployment successful. SKALE deployment failed.",
        both_failed_message := false,
        report := some (generate_report ska.2), ledger := ska.2 }
    | none, some k =>
      { env_ok := true, solana_result := none, skale_result := some k,
        sync_invoked := false, sync_returned := none,
        warn_message := some "Only SKALE deployment successful. Solana deployment failed.",
        both_failed_message := false,
        report := some (generate_report ska.2), ledger := ska.2 }
    | none, none =>
      { env_ok := true, solana_result := none, skale_result := none,
        sync_invoked := false, sync_returned := none, warn_message := none,
        both_failed_message := true, report := none, ledger := ska.2 }

/-- Example environment: all four tools present, private key configured. -/
def exEnv : Env :=
  { node := true, python3 := true, anchor := true, hardhat := true, private_key := "abc" }

/-- Example environment: credential configured but Node.js absent. -/
def envNoNode : Env :=
  { node := false, python3 := true, anchor := true, hardhat := true, private_key := "abc" }

/-- Example deploy subprocess: clean exit with a Solana marker line. -/
def solOkProc : ProcResult :=
  { returncode := 0, stdout := "Program ID: AAA", stderr := "" }

/-- Example deploy subprocess: clean exit with a SKALE marker line. -/
def skaOkProc : ProcResult :=
  { returncode := 0, stdout := "Contract Address: BBB", stderr := "" }

/-- Example deploy subprocess: nonzero exit. -/
def failProc : ProcResult :=
  { returncode := 1, stdout := "", stderr := "boom" }

/-- Example deploy subprocess: clean exit but no marker line in stdout. -/
def noMarkerProc : ProcResult :=
  { returncode := 0, stdout := "deployed fine", stderr := "" }

/-- The DeploymentResult `deploy_solana` builds from `solOkProc` at time 10. -/
def solResultAAA : DeploymentResult :=
  { chain := "solana", contract_address := "AAA", program_id := "AAA",
    tx_hash := "relayer_tx_hash", gas_used := "0", relayer_fee := "0.001", timestamp := 10 }

/-- The DeploymentResult `deploy_skale` builds from `skaOkProc` at time 11. -/
def skaResultBBB : DeploymentResult :=
  { chain := "skale", contract_address := "BBB", program_id := "BBB",
    tx_hash := "relayer_tx_hash", gas_used := "0", relayer_fee := "0.01", timestamp := 11 }

/-- Run inputs: both deploys succeed and the sync body raises. -/
def exInp : RunInputs :=
  { env := exEnv, buildOk := true, solanaProc := solOkProc, skaleProc := skaOkProc,
    tSol := 10, tSka := 11, tSync := 12, syncBodyOk := false }

/-- Run inputs: Solana succeeds, SKALE exits nonzero. -/
def exInpSolOnly : RunInputs :=
  { env := exEnv, buildOk := true, solanaProc := solOkProc, skaleProc := failProc,
    tSol := 10, tSka := 11, tSync := 12, syncBodyOk := true }

/-- Run inputs: both deploys exit nonzero. -/
def exInpBothFail : RunInputs :=
  { env := exEnv, buildOk := true, solanaProc := failProc, skaleProc := failProc,
    tSol := 10, tSka := 11, tSync := 12, syncBodyOk := true }

theorem DeployOutcome.recorded_eq_toList (o : DeployOutcome) :
    o.recorded = o.result.toList := by
  cases o <;> rfl

theorem deploy_solana_snd (l : List DeploymentResult) (b : Bool) (res : ProcResult) (t : Nat) :
    (deploy_solana l b res t).2 = l ++ (deploy_solana l b res t).1.recorded := by
  unfold deploy_solana
  repeat' split
  all_goals simp [DeployOutcome.recorded]

theorem deploy_skale_snd (l : List DeploymentResult) (res : ProcResult) (t : Nat) :
    (deploy_skale l res t).2 = l ++ (deploy_skale l res t).1.recorded := by
  unfold deploy_skale
  repeat' split
  all_goals simp [DeployOutcome.recorded]

theorem deploy_solana_result_chain (l : List DeploymentResult) (b : Bool)
    (res : ProcResult) (t : Nat) (d : DeploymentResult)
    (h : (deploy_solana l b res t).1.result = some d) : d.chain = "solana" := by
  unfold deploy_solana at h
  split at h
  · split at h
    · split at h
      · split at h
        · simp [DeployOutcome.result] at h
        · simp [DeployOutcome.result] at h
          rw [← h]
      · simp [DeployOutcome.result] at h
    · simp [DeployOutcome.result] at h
  · simp [DeployOutcome.result] at h

theorem deploy_skale_result_chain (l : List DeploymentResult)
    (res : ProcResult) (t : Nat) (d : DeploymentResult)
    (h : (deploy_skale l res t).1.result = some d) : d.chain = "skale" := by
  unfold deploy_skale at h
  split at h
  · split at h
    · split at h
      · simp [DeployOutcome.result] at h
      · simp [DeployOutcome.result] at h
        rw [← h]
    · simp [DeployOutcome.result] at h
  · simp [DeployOutcome.result] at h

theorem parseDecimal_fee_solana : parseDecimal "0.001" = 1 / 1000 := by
  have h : strSplitOn "0.001" "." = ["0", "001"] := by decide
  have h0 : digitsToNat "0" = 0 := by decide
  have h1 : digitsToNat "001" = 1 := by decide
  have hl : ("001" : String).length = 3 := by decide
  rw [parseDecimal, h]
  norm_num [h0, h1, hl]

theorem parseDecimal_fee_skale : parseDecimal "0.01" = 1 / 100 := by
  have h : strSplitOn "0.01" "." = ["0", "01"] := by decide
  have h0 : digitsToNat "0" = 0 := by decide
  have h1 : digitsToNat "01" = 1 := by decide
  have hl : ("01" : String).length = 2 := by decide
  rw [parseDecimal, h]
  norm_num [h0, h1, hl]

/-- Projection used in claim statements: the number of deployments a
(possibly absent) report lists. -/
def reportDetailsCount (r : Option Report) : Option Nat :=
  r.map (fun rep => rep.details.length)

/-- Projection used in claim statements: an optional deployment
result is absent or belongs to chain `c`. -/
def optChainIs (c : String) (o : Option DeploymentResult) : Bool :=
  o.all (fun d => d.chain == c)

theorem run_both_success (inp : RunInputs) (s k : DeploymentResult)
    (hEnv : check_environment inp.env = true)
    (h1 : (deploy_solana [] inp.buildOk inp.solanaProc inp.tSol).1.result = some s)
    (h2 : (deploy_skale (deploy_solana [] inp.buildOk inp.solanaProc inp.tSol).2
            inp.skaleProc inp.tSka).1.result = some k) :
    run_full_deployment inp =
      { env_ok := true, solana_result := some s, skale_result := some k,
        sync_invoked := true,
        sync_returned := some (sync_cross_chain s k inp.tSync inp.syncBodyOk),
        warn_message := none, both_failed_message := false,
        report := some (generate_report [s, k]), ledger := [s, k] } := by
  have hl1 : (deploy_solana [] inp.buildOk inp.solanaProc inp.tSol).2 = [s] := by
    rw [deploy_solana_snd, DeployOutcome.recorded_eq_toList, h1]; rfl
  have hl2 : (deploy_skale (deploy_solana [] inp.buildOk inp.solanaProc inp.tSol).2
      inp.skaleProc inp.tSka).2 = [s, k] := by
    rw [deploy_skale_snd, DeployOutcome.recorded_eq_toList, h2, hl1]; rfl
  simp only [run_full_deployment, hEnv]
  simp only [h1, h2, hl2]
  simp

theorem run_sol_only (inp : RunInputs) (s : DeploymentResult)
    (hEnv : check_environment inp.env = true)
    (h1 : (deploy_solana [] inp.buildOk inp.solanaProc inp.tSol).1.result = some s)
    (h2 : (deploy_skale (deploy_solana [] inp.buildOk inp.solanaProc inp.tSol).2
            inp.skaleProc inp.tSka).1.result = none) :
    run_full_deployment inp =
      { env_ok := true, solana_result := some s, skale_result := none,
        sync_invoked := false, sync_returned := none,
        warn_message := some "Only Solana deployment successful. SKALE deployment failed.",
        both_failed_message := false,
        report := some (generate_report [s]), ledger := [s] } := by
  have hl1 : (deploy_solana [] inp.buildOk inp.solanaProc inp.tSol).2 = [s] := by
    rw [deploy_solana_snd, DeployOutcome.recorded_eq_toList, h1]; rfl
  have hl2 : (deploy_skale (deploy_solana [] inp.buildOk inp.solanaProc inp.tSol).2
      inp.skaleProc inp.tSka).2 = [s] := by
    rw [deploy_skale_snd, DeployOutcome.recorded_eq_toList, h2, hl1]; rfl
  simp only [run_full_deployment, hEnv]
  simp only [h1, h2, hl2]
  simp

theorem run_ska_only (inp : RunInputs) (k : DeploymentResult)
    (hEnv : check_environment inp.env = true)
    (h1 : (deploy_solana [] inp.buildOk inp.solanaProc inp.tSol).1.result = none)
    (h2 : (deploy_skale (deploy_solana [] inp.buildOk inp.solanaProc inp.tSol).2
            inp.skaleProc inp.tSka).1.result = some k) :
    run_full_deployment inp =
      { env_ok := true, solana_result := none, skale_result := some k,
        sync_invoked := false, sync_returned := none,
        warn_message := some "Only SKALE deployment successful. Solana deployment failed.",
        both_failed_message := false,
        report := some (generate_report [k]), ledger := [k] } := by
  have hl1 : (deploy_solana [] inp.buildOk inp.solanaProc inp.tSol).2 = [] := by
    rw [deploy_solana_snd, DeployOutcome.recorded_eq_toList, h1]; rfl
  have hl2 : (deploy_skale (deploy_solana [] inp.buildOk inp.solanaProc inp.tSol).2
      inp.skaleProc inp.tSka).2 = [k] := by
    rw [deploy_skale_snd, DeployOutcome.recorded_eq_toList, h2, hl1]; rfl
  simp only [run_full_deployment, hEnv]
  simp only [h1, h2, hl2]
  simp

theorem run_all_failed (inp : RunInputs)
    (hEnv : check_environment inp.env = true)
    (h1 : (deploy_solana [] inp.buildOk inp.solanaProc inp.tSol).1.result = none)
    (h2 : (deploy_skale (deploy_solana [] inp.buildOk inp.solanaProc inp.tSol).2
            inp.skaleProc inp.tSka).1.result = none) :
    run_full_deployment inp =
      { env_ok := true, solana_result := none, skale_result := none,
        sync_invoked := false, sync_returned := none, warn_message := none,
        both_failed_message := true, report := none, ledger := [] } := by
  have hl1 : (deploy_solana [] inp.buildOk inp.solanaProc inp.tSol).2 = [] := by
    rw [deploy_solana_snd, DeployOutcome.recorded_eq_toList, h1]; rfl
  have hl2 : (deploy_skale (deploy_solana [] inp.buildOk inp.solanaProc inp.tSol).2
      inp.skaleProc inp.tSka).2 = [] := by
    rw [deploy_skale_snd, DeployOutcome.recorded_eq_toList, h2, hl1]; rfl
  simp only [run_full_deployment, hEnv]
  simp only [h1, h2, hl2]
  simp

theorem run_ledger_from_deploys (inp : RunInputs)
    (hEnv : check_environment inp.env = true) :
    (run_full_deployment inp).ledger =
      (deploy_skale (deploy_solana [] inp.buildOk inp.solanaProc inp.tSol).2
        inp.skaleProc inp.tSka).2 := by
  rcases h1 : (deploy_solana [] inp.buildOk inp.solanaProc inp.tSol).1.result with _ | s <;>
  rcases h2 : (deploy_skale (deploy_solana [] inp.buildOk inp.solanaProc inp.tSol).2
      inp.skaleProc inp.tSka).1.result with _ | k
  · have hl1 : (deploy_solana [] inp.buildOk inp.solanaProc inp.tSol).2 = [] := by
      rw [deploy_solana_snd, DeployOutcome.recorded_eq_toList, h1]; rfl
    have hl2 : (deploy_skale (deploy_solana [] inp.buildOk inp.solanaProc inp.tSol).2
        inp.skaleProc inp.tSka).2 = [] := by
      rw [deploy_skale_snd, DeployOutcome.recorded_eq_toList, h2, hl1]; rfl
    rw [run_all_failed inp hEnv h1 h2, hl2]
  · have hl1 : (deploy_solana [] inp.buildOk inp.solanaProc inp.tSol).2 = [] := by
      rw [deploy_solana_snd, DeployOutcome.recorded_eq_toList, h1]; rfl
    have hl2 : (deploy_skale (deploy_solana [] inp.buildOk inp.solanaProc inp.tSol).2
        inp.skaleProc inp.tSka).2 = [k] := by
      rw [deploy_skale_snd, DeployOutcome.recorded_eq_toList, h2, hl1]; rfl
    rw [run_ska_only inp k hEnv h1 h2, hl2]
  · have hl1 : (deploy_solana [] inp.buildOk inp.solanaProc inp.tSol).2 = [s] := by
      rw [deploy_solana_snd, DeployOutcome.recorded_eq_toList, h1]; rfl
    have hl2 : (deploy_skale (deploy_solana [] inp.buildOk inp.solanaProc inp.tSol).2
        inp.skaleProc inp.tSka).2 = [s] := by
      rw [deploy_skale_snd, DeployOutcome.recorded_eq_toList, h2, hl1]; rfl
    rw [run_sol_only inp s hEnv h1 h2, hl2]
  · have hl1 : (deploy_solana [] inp.buildOk inp.solanaProc inp.tSol).2 = [s] := by
      rw [deploy_solana_snd, DeployOutcome.recorded_eq_toList, h1]; rfl
    have hl2 : (deploy_skale (deploy_solana [] inp.buildOk inp.solanaProc inp.tSol).2
        inp.skaleProc inp.tSka).2 = [s, k] := by
      rw [deploy_skale_snd, DeployOutcome.recorded_eq_toList, h2, hl1]; rfl
    rw [run_both_success inp s k hEnv h1 h2, hl2]

/-- C1 counterexample: with one Solana and one SKALE deployment on the
ledger — chains whose native tokens differ (SOL vs sFUEL) — the
report's total is the single sum 0.001 + 0.01 = 0.011, which includes
both differently-denominated fees and equals neither per-token group
total: the sum cross-adds heterogeneous denominations. -/
theorem C1_single_sum_mixes_tokens :
    nativeTokenOf solResultAAA = "SOL" ∧
    nativeTokenOf skaResultBBB = "sFUEL" ∧
    nativeTokenOf solResultAAA ≠ nativeTokenOf skaResultBBB ∧
    (generate_report [solResultAAA, skaResultBBB]).total_savings = 11 / 1000 ∧
    specFeeByToken [solResultAAA, skaResultBBB] "SOL" = 1 / 1000 ∧
    specFeeByToken [solResultAAA, skaResultBBB] "sFUEL" = 1 / 100 ∧
    (generate_report [solResultAAA, skaResultBBB]).total_savings ≠
      specFeeByToken [solResultAAA, skaResultBBB] "SOL" ∧
    (generate_report [solResultAAA, skaResultBBB]).total_savings ≠
      specFeeByToken [solResultAAA, skaResultBBB] "sFUEL" := by
  have hSol : nativeTokenOf solResultAAA = "SOL" := by decide
  have hSka : nativeTokenOf skaResultBBB = "sFUEL" := by decide
  have hfSol : parseDecimal solResultAAA.relayer_fee = 1 / 1000 := parseDecimal_fee_solana
  have hfSka : parseDecimal skaResultBBB.relayer_fee = 1 / 100 := parseDecimal_fee_skale
  have htot : (generate_report [solResultAAA, skaResultBBB]).total_savings = 11 / 1000 := by
    simp [generate_report, hfSol, hfSka]
    norm_num
  have hgSol : specFeeByToken [solResultAAA, skaResultBBB] "SOL" = 1 / 1000 := by
    simp [specFeeByToken, hSol, hSka, hfSol, hfSka]
  have hgSka : specFeeByToken [solResultAAA, skaResultBBB] "sFUEL" = 1 / 100 := by
    simp [specFeeByToken, hSol, hSka, hfSol, hfSka]
  refine ⟨hSol, hSka, by rw [hSol, hSka]; decide, htot, hgSol, hgSka, ?_, ?_⟩
  · rw [htot, hgSol]; norm_num
  · rw [htot, hgSka]; norm_num

/-- C1 (amended): `generate_report` computes one scalar
`total_savings` by summing every recorded relayer fee regardless of
its native-token denomination — for any ledger over the two
configured chains, the reported total is the SOL-denominated group
total plus the sFUEL-denominated group total, cross-added into a
single number rather than reported per token. -/
theorem C1_total_fee_cross_adds (ds : List DeploymentResult)
    (h : ∀ d ∈ ds, d.chain = "solana" ∨ d.chain = "skale") :
    (generate_report ds).total_savings =
      specFeeByToken ds "SOL" + specFeeByToken ds "sFUEL" := by
  induction ds with
  | nil => simp [generate_report, specFeeByToken]
  | cons d tl ih =>
    have hd := h d (List.mem_cons_self d tl)
    have htl : ∀ x ∈ tl, x.chain = "solana" ∨ x.chain = "skale" :=
      fun x hx => h x (List.mem_cons_of_mem d hx)
    have ih2 := ih htl
    simp only [generate_report] at ih2 ⊢
    simp only [List.map_cons, List.sum_cons, specFeeByToken]
    rcases hd with hd | hd
    · have ht : nativeTokenOf d = "SOL" := by simp [nativeTokenOf, chains, hd]
      rw [ht, ih2]
      simp
      ring
    · have ht : nativeTokenOf d = "sFUEL" := by simp [nativeTokenOf, chains, hd]
      rw [ht, ih2]
      simp
      ring

/-- C1 witness: the cross-adding equation evaluated on the concrete
two-chain ledger. -/
theorem C1_total_fee_cross_adds_witness :
    (generate_report [solResultAAA, skaResultBBB]).total_savings =
      specFeeByToken [solResultAAA, skaResultBBB] "SOL" +
      specFeeByToken [solResultAAA, skaResultBBB] "sFUEL" :=
  C1_total_fee_cross_adds [solResultAAA, skaResultBBB] (by decide)

/-- C2 counterexample: a run in which both deployments succeed and the
sync step fails (returns False) still produces a report, but that
report marks the cross-chain status as synchronized, not
unsynchronized. -/
theorem C2_sync_failure_marked_synchronized :
    (run_full_deployment exInp).solana_result = some solResultAAA ∧
    (run_full_deployment exInp).skale_result = some skaResultBBB ∧
    (run_full_deployment exInp).sync_returned = some false ∧
    Option.map Report.cross_chain_synchronized (run_full_deployment exInp).report = some true ∧
    Option.map Report.cross_chain_synchronized (run_full_deployment exInp).report ≠ some false := by
  have h4 : Option.map Report.cross_chain_synchronized
      (run_full_deployment exInp).report = some true := rfl
  refine ⟨by decide, by decide, by decide, h4, ?_⟩
  intro h
  exact absurd (h4.symm.trans h) (by simp)

/-- C2 (amended): when both chain deployments succeed but the
cross-chain sync step fails, the run still reaches the report and the
two recorded DeploymentResults are reported unchanged, but the report
marks the cross-chain status as synchronized — the status is derived
from the deployment count alone, and `run_full_deployment` discards
the sync return value. -/
theorem C2_report_ignores_sync_failure (inp : RunInputs) (s k : DeploymentResult)
    (hEnv : check_environment inp.env = true)
    (h1 : (deploy_solana [] inp.buildOk inp.solanaProc inp.tSol).1.result = some s)
    (h2 : (deploy_skale (deploy_solana [] inp.buildOk inp.solanaProc inp.tSol).2
            inp.skaleProc inp.tSka).1.result = some k)
    (hSync : inp.syncBodyOk = false) :
    (run_full_deployment inp).sync_returned = some false ∧
    (run_full_deployment inp).ledger = [s, k] ∧
    (run_full_deployment inp).report = some (generate_report [s, k]) ∧
    (generate_report [s, k]).details = [s, k] ∧
    (generate_report [s, k]).cross_chain_synchronized = true := by
  rw [run_both_success inp s k hEnv h1 h2]
  refine ⟨?_, rfl, rfl, rfl, rfl⟩
  simp [sync_cross_chain, hSync]

/-- C2 witness: the amended statement at the concrete failing-sync
run. -/
theorem C2_report_ignores_sync_failure_witness :
    (run_full_deployment exInp).sync_returned = some false ∧
    (run_full_deployment exInp).ledger = [solResultAAA, skaResultBBB] ∧
    (run_full_deployment exInp).report =
      some (generate_report [solResultAAA, skaResultBBB]) ∧
    (generate_report [solResultAAA, skaResultBBB]).details = [solResultAAA, skaResultBBB] ∧
    (generate_report [solResultAAA, skaResultBBB]).cross_chain_synchronized = true :=
  C2_report_ignores_sync_failure exInp solResultAAA skaResultBBB
    (by decide) (by decide) (by decide) (by decide)

/-- C3 counterexample: an environment with the credential configured
but Node.js absent fails `check_environment` — refuting that the
absence of a build tool is only logged as a warning and the check
still passes. -/
theorem C3_missing_node_halts :
    envNoNode.private_key ≠ "your_private_key_here" ∧
    check_environment envNoNode = false :=
  ⟨by decide, by decide⟩

/-- C3 (amended): `check_environment` passes exactly when Node.js is
present, Python3 is present, and the credential is configured; the
absence of Anchor CLI or Hardhat is only logged and never changes the
outcome. -/
theorem C3_mandatory_checks (e : Env) :
    (check_environment e = true ↔
      (e.node = true ∧ e.python3 = true ∧ e.private_key ≠ "your_private_key_here")) ∧
    ∀ a h, check_environment { e with anchor := a, hardhat := h } = check_environment e := by
  obtain ⟨n, p, an, hh, key⟩ := e
  constructor
  · cases n <;> cases p <;> by_cases hk : key = "your_private_key_here" <;>
      simp [check_environment, hk]
  · intro a h
    rfl

/-- C4: a deploy invocation that exits 0 with no marker line in stdout
yields the `unparseable` outcome (the "could not extract" diagnostic),
a nonzero exit yields the distinct `externalFailure` outcome (the
"deployment failed" diagnostic), the two are distinguishable, and in
neither case is a successful DeploymentResult produced or recorded —
the ledger is returned untouched. -/
theorem C4_unparseable_distinct (l : List DeploymentResult) (res res2 : ProcResult)
    (t t2 : Nat) (s : String)
    (h0 : res.returncode = 0)
    (hSol : findMarkerValue "Program ID:" (strSplitOn res.stdout "\n") = none)
    (hSka : findMarkerValue "Contract Address:" (strSplitOn res.stdout "\n") = none)
    (h2 : res2.returncode ≠ 0) :
    deploy_solana l true res t = (DeployOutcome.unparseable, l) ∧
    deploy_skale l res t = (DeployOutcome.unparseable, l) ∧
    deploy_solana l true res2 t2 = (DeployOutcome.externalFailure res2.stderr, l) ∧
    deploy_skale l res2 t2 = (DeployOutcome.externalFailure res2.stderr, l) ∧
    DeployOutcome.unparseable ≠ DeployOutcome.externalFailure s ∧
    DeployOutcome.unparseable.result = none ∧
    (DeployOutcome.externalFailure s).result = none := by
  refine ⟨?_, ?_, ?_, ?_, by simp, rfl, rfl⟩
  · simp [deploy_solana, h0, hSol]
  · simp [deploy_skale, h0, hSka]
  · simp [deploy_solana, h2]
  · simp [deploy_skale, h2]

/-- C4 witness: concrete marker-less clean exit versus concrete
nonzero exit, on both chains. -/
theorem C4_unparseable_distinct_witness :
    deploy_solana [] true noMarkerProc 0 = (DeployOutcome.unparseable, []) ∧
    deploy_skale [] noMarkerProc 0 = (DeployOutcome.unparseable, []) ∧
    deploy_solana [] true failProc 1 = (DeployOutcome.externalFailure "boom", []) ∧
    deploy_skale [] failProc 1 = (DeployOutcome.externalFailure "boom", []) ∧
    DeployOutcome.unparseable ≠ DeployOutcome.externalFailure "boom" ∧
    DeployOutcome.unparseable.result = none ∧
    (DeployOutcome.externalFailure "boom").result = none :=
  C4_unparseable_distinct [] noMarkerProc failProc 0 1 "boom"
    (by decide) (by decide) (by decide) (by decide)

/-- C5 counterexample: a successful `deploy_solana` invocation does
not leave the ledger unchanged — the deployer itself appends its
result (source line 151), so the post-state differs from the empty
pre-state. -/
theorem C5_deployer_mutates_ledger :
    (deploy_solana [] true solOkProc 10).2 = [solResultAAA] ∧
    (deploy_solana [] true solOkProc 10).2 ≠ ([] : List DeploymentResult) :=
  ⟨by decide, by decide⟩

/-- C5 (amended): each deployer appends exactly its own success result
to the ledger (and nothing on failure), and the calling orchestrator
performs no further append — the run's final ledger is exactly what
the two deploy calls themselves left behind. -/
theorem C5_deployer_appends (l : List DeploymentResult) (b : Bool) (res : ProcResult) (t : Nat) :
    (deploy_solana l b res t).2 = l ++ (deploy_solana l b res t).1.recorded ∧
    (deploy_skale l res t).2 = l ++ (deploy_skale l res t).1.recorded ∧
    ∀ inp : RunInputs, check_environment inp.env = true →
      (run_full_deployment inp).ledger =
        (deploy_skale (deploy_solana [] inp.buildOk inp.solanaProc inp.tSol).2
          inp.skaleProc inp.tSka).2 :=
  ⟨deploy_solana_snd l b res t, deploy_skale_snd l res t,
   fun inp hEnv => run_ledger_from_deploys inp hEnv⟩

/-- C5 witness: the append equation and run-ledger equation at
concrete inputs. -/
theorem C5_deployer_appends_witness :
    (deploy_solana [] true solOkProc 10).2 =
      [] ++ (deploy_solana [] true solOkProc 10).1.recorded ∧
    (run_full_deployment exInp).ledger =
      (deploy_skale (deploy_solana [] exInp.buildOk exInp.solanaProc exInp.tSol).2
        exInp.skaleProc exInp.tSka).2 :=
  ⟨(C5_deployer_appends [] true solOkProc 10).1,
   (C5_deployer_appends [] true solOkProc 10).2.2 exInp (by decide)⟩

/-- C6: after both deploys settle, the terminal branch is decided by
the number of successes — two successes invoke the sync step, exactly
one success skips sync, emits the partial-success warning and reports
exactly one deployment, and zero successes emit the both-failed
message and produce no report. -/
theorem C6_terminal_branching (inp : RunInputs) (hEnv : check_environment inp.env = true) :
    ((run_full_deployment inp).solana_result.isSome = true →
     (run_full_deployment inp).skale_result.isSome = true →
     (run_full_deployment inp).sync_invoked = true) ∧
    ((((run_full_deployment inp).solana_result.isSome = true ∧
        (run_full_deployment inp).skale_result = none) ∨
      ((run_full_deployment inp).solana_result = none ∧
        (run_full_deployment inp).skale_result.isSome = true)) →
     (run_full_deployment inp).sync_invoked = false ∧
     (run_full_deployment inp).warn_message.isSome = true ∧
     reportDetailsCount (run_full_deployment inp).report = some 1) ∧
    ((run_full_deployment inp).solana_result = none ∧
      (run_full_deployment inp).skale_result = none →
     (run_full_deployment inp).both_failed_message = true ∧
     (run_full_deployment inp).report = none) := by
  rcases h1 : (deploy_solana [] inp.buildOk inp.solanaProc inp.tSol).1.result with _ | s <;>
  rcases h2 : (deploy_skale (deploy_solana [] inp.buildOk inp.solanaProc inp.tSol).2
      inp.skaleProc inp.tSka).1.result with _ | k
  · rw [run_all_failed inp hEnv h1 h2]
    simp [reportDetailsCount]
  · rw [run_ska_only inp k hEnv h1 h2]
    simp [reportDetailsCount, generate_report]
  · rw [run_sol_only inp s hEnv h1 h2]
    simp [reportDetailsCount, generate_report]
  · rw [run_both_success inp s k hEnv h1 h2]
    simp [reportDetailsCount]

/-- C6 witness: the exactly-one-success branch at a concrete run in
which Solana succeeds and SKALE exits nonzero. -/
theorem C6_terminal_branching_witness :
    check_environment exInpSolOnly.env = true ∧
    (run_full_deployment exInpSolOnly).sync_invoked = false ∧
    (run_full_deployment exInpSolOnly).warn_message.isSome = true ∧
    reportDetailsCount (run_full_deployment exInpSolOnly).report = some 1 :=
  ⟨by decide, (C6_terminal_branching exInpSolOnly (by decide)).2.1
    (Or.inl ⟨by decide, by decide⟩)⟩

/-- C7: the cross-chain sync record construction is idempotent in its
shared state — invocations on the same unchanged pair of deployment
results (at any two times) produce identical `sacred_state`, with the
fixed baseline matrix level 1 and earnings pool 0 and an allowlist of
exactly the two contract addresses. -/
theorem C7_sync_state_idempotent (sol ska : DeploymentResult) (t1 t2 : Nat) :
    (sync_data sol ska t1).sacred_state = (sync_data sol ska t2).sacred_state ∧
    (sync_data sol ska t1).sacred_state.matrix_level = 1 ∧
    (sync_data sol ska t1).sacred_state.earnings_pool = 0 ∧
    (sync_data sol ska t1).sacred_state.allowlist =
      [sol.contract_address, ska.contract_address] :=
  ⟨rfl, rfl, rfl, rfl⟩

/-- C8: a Solana deploy invocation that exits 0 and whose stdout
yields a `Program ID: <value>` marker with a (necessarily nonempty —
line 141's truthiness guard) extracted value `v` returns the success
result with chain "solana", contract address and program id both `v`,
and gas_used "0", and appends exactly that result to the ledger. -/
theorem C8_solana_success_fields (l : List DeploymentResult) (res : ProcResult)
    (t : Nat) (v : String)
    (h0 : res.returncode = 0)
    (hm : findMarkerValue "Program ID:" (strSplitOn res.stdout "\n") = some v)
    (hv : v ≠ "") :
    deploy_solana l true res t =
      (DeployOutcome.success
        { chain := "solana", contract_address := v, program_id := v,
          tx_hash := "relayer_tx_hash", gas_used := "0",
          relayer_fee := "0.001", timestamp := t },
       l ++ [{ chain := "solana", contract_address := v, program_id := v,
               tx_hash := "relayer_tx_hash", gas_used := "0",
               relayer_fee := "0.001", timestamp := t }]) := by
  simp [deploy_solana, h0, hm, hv]

/-- C8 witness: the concrete stdout "Program ID: AAA" produces the
expected success result. -/
theorem C8_solana_success_fields_witness :
    deploy_solana [] true solOkProc 10 = (DeployOutcome.success solResultAAA, [solResultAAA]) :=
  C8_solana_success_fields [] solOkProc 10 "AAA" (by decide) (by decide) (by decide)

/-- C9: ledger invariant of a run — the final ledger is exactly the
optional Solana success followed by the optional SKALE success (so
results are created only on deploy success), each recorded result
belongs to its own chain (at most one result per chain, chains
pairwise distinct), and the ledger is append-only: the intermediate
ledger after the Solana deploy is a prefix of the final ledger. -/
theorem C9_ledger_invariant (inp : RunInputs) (hEnv : check_environment inp.env = true) :
    (run_full_deployment inp).ledger =
      (run_full_deployment inp).solana_result.toList ++
      (run_full_deployment inp).skale_result.toList ∧
    (run_full_deployment inp).solana_result =
      (deploy_solana [] inp.buildOk inp.solanaProc inp.tSol).1.result ∧
    (run_full_deployment inp).skale_result =
      (deploy_skale (deploy_solana [] inp.buildOk inp.solanaProc inp.tSol).2
        inp.skaleProc inp.tSka).1.result ∧
    (run_full_deployment inp).ledger.take
        (deploy_solana [] inp.buildOk inp.solanaProc inp.tSol).2.length =
      (deploy_solana [] inp.buildOk inp.solanaProc inp.tSol).2 ∧
    optChainIs "solana" (run_full_deployment inp).solana_result = true ∧
    optChainIs "skale" (run_full_deployment inp).skale_result = true ∧
    ((run_full_deployment inp).ledger.map DeploymentResult.chain).Nodup := by
  rcases h1 : (deploy_solana [] inp.buildOk inp.solanaProc inp.tSol).1.result with _ | s <;>
  rcases h2 : (deploy_skale (deploy_solana [] inp.buildOk inp.solanaProc inp.tSol).2
      inp.skaleProc inp.tSka).1.result with _ | k
  · have hl1 : (deploy_solana [] inp.buildOk inp.solanaProc inp.tSol).2 = [] := by
      rw [deploy_solana_snd, DeployOutcome.recorded_eq_toList, h1]; rfl
    rw [run_all_failed inp hEnv h1 h2]
    simp [h1, h2, hl1, optChainIs]
  · have hl1 : (deploy_solana [] inp.buildOk inp.solanaProc inp.tSol).2 = [] := by
      rw [deploy_solana_snd, DeployOutcome.recorded_eq_toList, h1]; rfl
    have hc : k.chain = "skale" := deploy_skale_result_chain _ _ _ _ h2
    rw [run_ska_only inp k hEnv h1 h2]
    simp [h1, h2, hl1, optChainIs, hc]
  · have hl1 : (deploy_solana [] inp.buildOk inp.solanaProc inp.tSol).2 = [s] := by
      rw [deploy_solana_snd, DeployOutcome.recorded_eq_toList, h1]; rfl
    have hc : s.chain = "solana" := deploy_solana_result_chain _ _ _ _ _ h1
    rw [run_sol_only inp s hEnv h1 h2]
    simp [h1, h2, hl1, optChainIs, hc]
  · have hl1 : (deploy_solana [] inp.buildOk inp.solanaProc inp.tSol).2 = [s] := by
      rw [deploy_solana_snd, DeployOutcome.recorded_eq_toList, h1]; rfl
    have hcs : s.chain = "solana" := deploy_solana_result_chain _ _ _ _ _ h1
    have hck : k.chain = "skale" := deploy_skale_result_chain _ _ _ _ h2
    rw [run_both_success inp s k hEnv h1 h2]
    simp [h1, h2, hl1, optChainIs, hcs, hck]

/-- C9 witness: the invariant at a concrete run in which both
deployments succeed. -/
theorem C9_ledger_invariant_witness :
    (run_full_deployment exInp).ledger =
      (run_full_deployment exInp).solana_result.toList ++
      (run_full_deployment exInp).skale_result.toList ∧
    (run_full_deployment exInp).solana_result =
      (deploy_solana [] exInp.buildOk exInp.solanaProc exInp.tSol).1.result ∧
    (run_full_deployment exInp).skale_result =
      (deploy_skale (deploy_solana [] exInp.buildOk exInp.solanaProc exInp.tSol).2
        exInp.skaleProc exInp.tSka).1.result ∧
    (run_full_deployment exInp).ledger.take
        (deploy_solana [] exInp.buildOk exInp.solanaProc exInp.tSol).2.length =
      (deploy_solana [] exInp.buildOk exInp.solanaProc exInp.tSol).2 ∧
    optChainIs "solana" (run_full_deployment exInp).solana_result = true ∧
    optChainIs "skale" (run_full_deployment exInp).skale_result = true ∧
    ((run_full_deployment exInp).ledger.map DeploymentResult.chain).Nodup :=
  C9_ledger_invariant exInp (by decide)

/-- C10: `sync_cross_chain` returns True whenever its (modelled)
print/serialization body completes — the implemented bridge step
contains no attestation call, so no input pair can drive it into the
False branch: the return value is independent of the deployment
pair. -/
theorem C10_sync_never_fails (sol ska sol2 ska2 : DeploymentResult)
    (t t2 : Nat) (b : Bool) :
    sync_cross_chain sol ska t true = true ∧
    sync_cross_chain sol ska t b = sync_cross_chain sol2 ska2 t2 b :=
  ⟨rfl, rfl⟩
